import Mathlib

/-!
# AgriSageAI — verification of the specification against the source

Shallow embedding of the AgriSageAI repository (React/TypeScript frontend in
`src/`, backend contract in `backend/README.md`).  JavaScript runtime values
crossing the HTTP boundary are modelled by the inductive `JsValue`; numbers are
modelled as rationals (JS `NaN`/`Infinity` are represented by `Option` where a
parse can fail).  Stateful UI handlers are modelled as pure functions from
their inputs (form state, the fetched HTTP response, browser oracles such as
`Number(-)` and the clock) to an explicit record of the side effects they
perform.
-/

/-- A JSON/JavaScript value as seen by the frontend client code.
`undefined` is the result of a missing property access; numbers are rationals
(the claims never depend on float rounding); objects are association lists. -/
inductive JsValue where
  | undefined : JsValue
  | null : JsValue
  | bool : Bool → JsValue
  | num : ℚ → JsValue
  | str : String → JsValue
  | arr : List JsValue → JsValue
  | obj : List (String × JsValue) → JsValue

/-- JavaScript truthiness: `undefined`, `null`, `false`, `0` and `""` are
falsy; objects and arrays are always truthy. -/
def JsValue.truthy : JsValue → Bool
  | .undefined => false
  | .null => false
  | .bool b => b
  | .num q => q ≠ 0
  | .str s => s ≠ ""
  | .arr _ => true
  | .obj _ => true

/-- Optional-chaining property access `v?.k`: `undefined` on anything that is
not an object carrying the key. -/
def JsValue.getField : JsValue → String → JsValue
  | .obj fields, k => ((fields.find? (fun p => p.1 == k)).map Prod.snd).getD .undefined
  | _, _ => .undefined

/-- Optional-chaining index access `v?.[i]`. -/
def JsValue.getIndex : JsValue → Nat → JsValue
  | .arr xs, i => (xs.get? i).getD .undefined
  | _, _ => .undefined

/-- The JavaScript nullish-coalescing operator `a ?? b`. -/
def JsValue.nullishOr (v fallbackValue : JsValue) : JsValue :=
  match v with
  | .undefined => fallbackValue
  | .null => fallbackValue
  | x => x

/-- An HTTP response as observed by `fetch` in `src/lib/api.ts`: the `ok`
status flag, and the body, `none` when the body is not valid JSON (so that
`response.json()` rejects). -/
structure HttpResponse where
  ok : Bool
  body : Option JsValue

/-- `parseJsonSafe` from `src/lib/api.ts`: returns the parsed JSON body, or
the empty object when parsing throws. -/
def parseJsonSafe (body : Option JsValue) : JsValue :=
  match body with
  | some v => v
  | none => .obj []

/-- `requestCropRecommendation` from `src/lib/api.ts`, with the network call
modelled by the `response` argument.  Throwing `new Error(message)` is
modelled as `Except.error message`. -/
def requestCropRecommendation (response : HttpResponse) : Except JsValue JsValue :=
  let data := parseJsonSafe response.body
  if !response.ok || !(data.getField "success").truthy then
    Except.error ((data.getField "error").nullishOr (.str "Failed to fetch recommendation"))
  else
    Except.ok data

/-- `requestAssistantChat` from `src/lib/api.ts`, same shape as
`requestCropRecommendation` with its own fallback message. -/
def requestAssistantChat (response : HttpResponse) : Except JsValue JsValue :=
  let data := parseJsonSafe response.body
  if !response.ok || !(data.getField "success").truthy then
    Except.error ((data.getField "error").nullishOr (.str "Assistant request failed"))
  else
    Except.ok data

/-- The error-handling contract of a client request function `f` with fallback
message `fb` on a given response: it fails exactly when the response is not ok
or the parsed body's `success` field is falsy; the thrown message is the
body's `error` string when that field holds a string, and the fallback when
the field is absent (`undefined`) or `null`; on success the parsed body is
returned unchanged. -/
def ClientContract (f : HttpResponse → Except JsValue JsValue) (fb : String)
    (resp : HttpResponse) : Prop :=
  let data := parseJsonSafe resp.body
  (f resp = Except.ok data ↔ (resp.ok = true ∧ (data.getField "success").truthy = true))
  ∧ ((∃ m, f resp = Except.error m) ↔
      (resp.ok = false ∨ (data.getField "success").truthy = false))
  ∧ (∀ m, f resp = Except.error m →
      ((∀ s, data.getField "error" = .str s → m = .str s)
        ∧ ((data.getField "error" = .undefined ∨ data.getField "error" = .null)
            → m = .str fb)))

/-! ## `src/pages/CropAnalysis.tsx` — the analysis form submit handler -/

/-- The form state of the `CropAnalysis` page. -/
structure FormState where
  district : String
  state : String
  landSize : String
  season : String
  water : String
  soilType : String

/-- The observable side effects of one run of `handleSubmit`:
the error message left in component state, the profile update passed to
`updateProfile` (landSize, soilType, lastAnalysisDate), the request payload
sent over the network, the `localStorage` writes, and the value navigated to
`/results` with. -/
structure SubmitEffects where
  errorMessage : JsValue
  profileUpdate : Option (String × String × String)
  requestSent : Option JsValue
  storageWrites : List (String × JsValue)
  navigatedWith : Option JsValue

/-- JavaScript `[..].filter(Boolean).join(', ')` over strings: keep the
non-empty entries and join them with a comma and a space. -/
def joinCommaAll : List String → String
  | [] => ""
  | [x] => x
  | x :: xs => x ++ ", " ++ joinCommaAll xs

def filterJoinComma (xs : List String) : String :=
  joinCommaAll (xs.filter (fun s => s ≠ ""))

/-- `handleSubmit` from `src/pages/CropAnalysis.tsx`.  The JavaScript
`Number(-)` builtin is modelled by the oracle `jsNumber` (`none` = not a
finite number), the clock by `today`/`now`, the network by `response`.
The handler clears the error message, rejects a land size that is not a
finite number strictly greater than 0 before doing anything else, and
otherwise updates the profile, sends the request, and on success writes the
two `localStorage` caches and navigates to `/results`. -/
def handleSubmit (jsNumber : String → Option ℚ) (today : String) (now : ℚ)
    (language : String) (form : FormState) (response : HttpResponse) : SubmitEffects :=
  match jsNumber form.landSize with
  | none =>
    { errorMessage := .str "Please enter a valid land size in acres.",
      profileUpdate := none, requestSent := none, storageWrites := [],
      navigatedWith := none }
  | some acres =>
    if acres ≤ 0 then
      { errorMessage := .str "Please enter a valid land size in acres.",
        profileUpdate := none, requestSent := none, storageWrites := [],
        navigatedWith := none }
    else
      let location := filterJoinComma [form.district.trim, form.state.trim]
      let farmerContext := "Season: " ++ form.season ++ ". Water availability: "
        ++ form.water ++ ". Soil type: " ++ form.soilType.trim
      let payload : JsValue := .obj [
        ("location", .str location),
        ("district", .str form.district.trim),
        ("state", .str form.state.trim),
        ("acres", .num acres),
        ("landSize", .num acres),
        ("season", .str form.season),
        ("water", .str form.water),
        ("soilType", .str form.soilType.trim),
        ("language", .str language),
        ("farmer_input", .str farmerContext)]
      match requestCropRecommendation response with
      | .ok data =>
        let lastResult : JsValue := .obj [
          ("topCrop", (((data.getField "top_crops").getIndex 0).getField "crop").nullishOr .null),
          ("location", data.getField "location"),
          ("acres", data.getField "acres"),
          ("timestamp", .num now)]
        { errorMessage := .str "",
          profileUpdate := some (form.landSize, form.soilType, today),
          requestSent := some payload,
          storageWrites := [("agri_last_result", lastResult),
                            ("agri_recommendation_result", data)],
          navigatedWith := some data }
      | .error m =>
        { errorMessage := m,
          profileUpdate := some (form.landSize, form.soilType, today),
          requestSent := some payload,
          storageWrites := [],
          navigatedWith := none }

/-! ## `src/contexts/AuthContext.tsx` — the `ChatBot` widget -/

/-- The farmer profile stored by `AuthContext` (optional fields model the
TypeScript optionals). -/
structure FarmerProfile where
  name : String
  phone : String
  district : String
  state : String
  landSize : Option String
  soilType : Option String

/-- `acres` in the `ChatBot`: `Number(farmer?.landSize ?? 1)` clamped to a
positive finite value, defaulting to 1. -/
def chatAcres (jsNumber : String → Option ℚ) (farmer : Option FarmerProfile) : ℚ :=
  let parsed : Option ℚ :=
    match farmer with
    | none => some 1
    | some f =>
      match f.landSize with
      | none => some 1
      | some s => jsNumber s
  match parsed with
  | some v => if 0 < v then v else 1
  | none => 1

/-- `location` in the `ChatBot`: district and state joined when either is a
non-empty string, otherwise the literal "India". -/
def chatLocation (farmer : Option FarmerProfile) : String :=
  match farmer with
  | none => "India"
  | some f =>
    if f.district ≠ "" ∨ f.state ≠ "" then filterJoinComma [f.district, f.state]
    else "India"

/-- `latestCrop` in the `ChatBot`: reads the `agri_last_result` cache.  The
outer `Option` is `localStorage.getItem` (`none` = no entry), the inner one is
`JSON.parse` (`none` = parse threw).  Missing entry or parse failure yield
`undefined`; otherwise the parsed value's `topCrop` field. -/
def latestCrop (stored : Option (Option JsValue)) : JsValue :=
  match stored with
  | none => .undefined
  | some none => .undefined
  | some (some parsed) => parsed.getField "topCrop"

/-- The assistant chat payload built by `sendMessage`; `JSON.stringify` drops
a key whose value is `undefined`, so an `undefined` crop is omitted. -/
def buildChatPayload (message language location : String) (acres : ℚ)
    (crop : JsValue) : JsValue :=
  .obj ([("message", .str message), ("language", .str language),
         ("location", .str location), ("acres", .num acres)] ++
    (match crop with
     | .undefined => []
     | c => [("crop", c)]))

/-- A concrete profile for the C9 witness: empty district/state and a land
size that does not parse. -/
def exampleFarmer : FarmerProfile := ⟨"A", "9", "", "", some "abc", none⟩

/-- A concrete successful recommendation body for the C10 witness. -/
def exampleRecommendationBody : JsValue :=
  .obj [("success", .bool true),
        ("top_crops", .arr [.obj [("crop", .str "rice"), ("confidence", .num (9/10))]]),
        ("location", .str "Warangal, Telangana"),
        ("acres", .num 3)]

/-! ## Typed data model mirroring the TypeScript types in `src/lib/api.ts` -/

structure SoilFeatures where
  N : ℚ
  P : ℚ
  K : ℚ
  temperature : ℚ
  humidity : ℚ
  rainfall : ℚ
  ph : ℚ
deriving DecidableEq

structure TopCrop where
  crop : String
  confidence : ℚ
deriving DecidableEq

structure MarketCropPrediction where
  crop : String
  price_per_quintal : ℚ
  yield_per_acre : ℚ
  expected_revenue_per_acre : ℚ
  worst_case_revenue_per_acre : ℚ
  expected_revenue_total : ℚ
  worst_case_revenue_total : ℚ
  cvi : ℚ
  risk_level : String
  confidence : ℚ
deriving DecidableEq

structure FeatureContribution where
  feature : String
  value : ℚ
  impact : ℚ
deriving DecidableEq

structure MarketPrediction where
  per_crop : List MarketCropPrediction
  overall_cvi : ℚ
  recommended_market_crop : Option String
deriving DecidableEq

structure Explainability where
  method : String
  top_crop : String
  summary : String
  feature_contributions : List FeatureContribution
deriving DecidableEq

structure AssistantScheme where
  id : String
  name : String
  description : String
  benefit : String
  eligibility_hint : String
  eligible : Bool
  score : ℚ
  link : String
deriving DecidableEq

structure AssistantEvidence where
  scheme_id : String
  title : String
  snippet : String
  source : String
  score : ℚ
deriving DecidableEq

structure RecommendationResponse where
  success : Bool
  input_source : String
  location : String
  acres : ℚ
  normalized_features : SoilFeatures
  top_crops : List TopCrop
  market_prediction : MarketPrediction
  explainability : Explainability
  extraction_notes : List String
  model_info : List (String × String)
  scheme_suggestions : List AssistantScheme
deriving DecidableEq

/-! ## The Results page (`src/pages/Results.tsx`) -/

/-- Rendering of a rational as text, standing in for JavaScript number → string
conversion (the claims do not depend on the exact digits). -/
def ratToString (q : ℚ) : String :=
  if q.den = 1 then toString q.num else toString q.num ++ "/" ++ toString q.den

/-- `Number.prototype.toFixed(2)`, on rationals. -/
def toFixed2 (q : ℚ) : String :=
  let n : ℤ := round (q * 100)
  let frac := n.natAbs % 100
  toString (n / 100) ++ "." ++ (if frac < 10 then "0" ++ toString frac else toString frac)

/-- The value of the `data` memo computed by the `Results` component from a
`RecommendationResponse`: everything the Results page derives and renders. -/
structure ResultsData where
  recommendedCrop : String
  expectedProfitTotal : ℤ
  riskScore : ℤ
  climateVolatilityIndex : String
  explanation : String
  extractionNotes : List String
  profitComparison : List (String × ℚ × ℚ)
  monteCarloData : List (ℕ × ℚ × ℚ × ℚ)
  schemes : List (String × String × String × Bool)
deriving DecidableEq

/-- The `data` memo of `Results`, field by field from the source.  The
`?? 0` fallbacks after `overall_cvi` are dead in the typed model because the
TypeScript type declares the field as a number. -/
def resultsData (r : RecommendationResponse) : ResultsData :=
  let topMarket := r.market_prediction.per_crop[0]?
  { recommendedCrop := ((r.top_crops[0]?.map TopCrop.crop).getD "N/A")
    expectedProfitTotal :=
      round ((topMarket.map MarketCropPrediction.expected_revenue_total).getD 0)
    riskScore :=
      round ((topMarket.map MarketCropPrediction.cvi).getD r.market_prediction.overall_cvi)
    climateVolatilityIndex := toFixed2 r.market_prediction.overall_cvi
    explanation :=
      "For " ++ r.location ++ " (" ++ ratToString r.acres
        ++ " acres), top recommendation is " ++ ((r.top_crops[0]?.map TopCrop.crop).getD "N/A")
        ++ " with " ++ toFixed2 (((r.top_crops[0]?.map TopCrop.confidence).getD 0) * 100)
        ++ "% confidence. Feature source: " ++ r.input_source ++ "."
    extractionNotes := r.extraction_notes
    profitComparison := r.market_prediction.per_crop.map
      (fun row => (row.crop, row.expected_revenue_total, row.worst_case_revenue_total))
    monteCarloData := (List.range 20).map (fun i =>
      let a := ((r.market_prediction.per_crop[0]?.map
        MarketCropPrediction.expected_revenue_total).getD 0)
      let b := ((r.market_prediction.per_crop[1]?.map
        MarketCropPrediction.expected_revenue_total).getD 0)
      let c := ((r.market_prediction.per_crop[2]?.map
        MarketCropPrediction.expected_revenue_total).getD 0)
      (i + 1,
        a * (9/10 + ((i % 5 : ℕ) : ℚ) * (3/100)),
        b * (88/100 + ((i % 4 : ℕ) : ℚ) * (3/100)),
        c * (9/10 + ((i % 3 : ℕ) : ℚ) * (4/100))))
    schemes := [
      ("PM-KISAN", "Direct income support of Rs 6,000/year to small and marginal farmers",
        "Income Support", true),
      ("PMFBY", "Crop insurance at subsidized premium", "Crop Insurance", true),
      ("Soil Health Card Scheme", "Soil testing and nutrient recommendations",
        "Soil Health", true),
      ("Kisan Credit Card", "Short-term crop production credit", "Credit Access", false)] }

/-- Replace only the `market_prediction.recommended_market_crop` field. -/
def setRecommendedMarketCrop (r : RecommendationResponse) (v : Option String) :
    RecommendationResponse :=
  { r with market_prediction := { r.market_prediction with recommended_market_crop := v } }

/-- A concrete recommendation response used to exhibit what the Results page
reads. -/
def exampleResponseA : RecommendationResponse :=
  { success := true
    input_source := "heuristic_fallback"
    location := "Warangal, Telangana"
    acres := 3
    normalized_features := ⟨50, 40, 30, 28, 65, 800, 13/2⟩
    top_crops := [⟨"rice", 9/10⟩, ⟨"cotton", 7/10⟩]
    market_prediction :=
      { per_crop := [⟨"rice", 2000, 20, 40000, 26000, 120000, 78000, 35, "medium", 9/10⟩]
        overall_cvi := 35
        recommended_market_crop := some "rice" }
    explainability := ⟨"surrogate_zscore", "rice", "summary", []⟩
    extraction_notes := ["used regional defaults"]
    model_info := []
    scheme_suggestions := [] }

/-- `exampleResponseA` with a different first top crop. -/
def exampleResponseB : RecommendationResponse :=
  { exampleResponseA with top_crops := [⟨"wheat", 9/10⟩, ⟨"cotton", 7/10⟩] }

/-- `exampleResponseA` with only `recommended_market_crop` changed. -/
def exampleResponseC : RecommendationResponse :=
  setRecommendedMarketCrop exampleResponseA (some "cotton")

/-! ## The backend recommendation pipeline

The backend implementation is not under `src/` — only its contract is, via
`backend/README.md` and the typed client in `src/lib/api.ts` — so the
pipeline below is modelled from the specification. -/

/-- Modelled from the spec: a recommendation request after validation-relevant
normalization (location text, positive acreage, free farmer narrative). -/
structure RecommendationRequest where
  location : String
  acres : ℚ
  farmer_input : String

/-- The ranking order of the crop ranker: descending confidence, ties broken
by the crop name as a stable secondary key. -/
def cropOrder (a b : TopCrop) : Prop :=
  b.confidence < a.confidence ∨ (a.confidence = b.confidence ∧ a.crop ≤ b.crop)

instance : DecidableRel cropOrder := fun a b =>
  decidable_of_iff
    (b.confidence < a.confidence ∨ (a.confidence = b.confidence ∧ a.crop ≤ b.crop))
    Iff.rfl

instance : IsTrans TopCrop cropOrder := by
  constructor
  intro a b c hab hbc
  rcases hab with h1 | ⟨e1, l1⟩ <;> rcases hbc with h2 | ⟨e2, l2⟩
  · exact Or.inl (lt_trans h2 h1)
  · exact Or.inl (e2 ▸ h1)
  · exact Or.inl (by rw [e1]; exact h2)
  · exact Or.inr ⟨e1.trans e2, l1.trans l2⟩

instance : IsTotal TopCrop cropOrder := by
  constructor
  intro a b
  rcases lt_trichotomy a.confidence b.confidence with h | h | h
  · exact Or.inr (Or.inl h)
  · rcases le_total a.crop b.crop with hc | hc
    · exact Or.inl (Or.inr ⟨h, hc⟩)
    · exact Or.inr (Or.inr ⟨h.symm, hc⟩)
  · exact Or.inl (Or.inl h)

instance : IsAntisymm TopCrop cropOrder := by
  constructor
  intro a b hab hba
  rcases hab with h1 | ⟨e1, l1⟩ <;> rcases hba with h2 | ⟨e2, l2⟩
  · exact absurd h2 (lt_asymm h1)
  · exact absurd h1 (by rw [e2]; exact lt_irrefl _)
  · exact absurd h2 (by rw [e1]; exact lt_irrefl _)
  · have hc : a.crop = b.crop := le_antisymm l1 l2
    cases a
    cases b
    simp only [TopCrop.mk.injEq]
    exact ⟨hc, e1⟩

/-- Modelled from the spec: the ranker's default crop set, returned when the
opaque model yields no candidates, so a valid request always has at least one
top crop. -/
def defaultTopCrops : List TopCrop :=
  [⟨"rice", 1/2⟩, ⟨"cotton", 2/5⟩, ⟨"maize", 3/10⟩]

/-- Modelled from the spec: the crop ranker — stable sorting and tie-breaking
of the opaque model scores, with the non-empty default fallback. -/
def rankCrops (modelScores : List TopCrop) : List TopCrop :=
  let ranked := List.insertionSort cropOrder modelScores
  if ranked.isEmpty then defaultTopCrops else ranked

/-- Modelled from the spec: the market reference table — price per quintal,
yield per acre and CVI per crop, with a default row for unknown crops. -/
def marketTable (crop : String) : ℚ × ℚ × ℚ :=
  if crop = "rice" then (2000, 20, 35)
  else if crop = "cotton" then (6000, 8, 55)
  else if crop = "maize" then (1800, 22, 40)
  else if crop = "wheat" then (2100, 18, 30)
  else (1500, 10, 50)

/-- Modelled from the spec: the risk discount applied to expected revenue,
clamped to [0, 1] (the concrete formula is left open by the contract; the
clamp keeps the worst-case invariant). -/
def riskDiscount (cvi : ℚ) : ℚ := min 1 (max 0 (cvi / 100))

/-- Modelled from the spec: low/medium/high banding over CVI. -/
def riskBand (cvi : ℚ) : String :=
  if cvi < 30 then "low" else if cvi < 60 then "medium" else "high"

/-- Modelled from the spec: the market and risk estimate for one ranked crop:
expected revenue = price × yield, worst case = expected × (1 − discount),
totals = per-acre × acreage. -/
def marketEntry (acres : ℚ) (t : TopCrop) : MarketCropPrediction :=
  let price := (marketTable t.crop).1
  let yld := (marketTable t.crop).2.1
  let cvi := (marketTable t.crop).2.2
  let expectedPA := price * yld
  let worstPA := expectedPA * (1 - riskDiscount cvi)
  { crop := t.crop
    price_per_quintal := price
    yield_per_acre := yld
    expected_revenue_per_acre := expectedPA
    worst_case_revenue_per_acre := worstPA
    expected_revenue_total := expectedPA * acres
    worst_case_revenue_total := worstPA * acres
    cvi := cvi
    risk_level := riskBand cvi
    confidence := t.confidence }

/-- Modelled from the spec: the overall CVI reducer — confidence-weighted
average of the per-crop CVIs. -/
def overallCvi (per : List MarketCropPrediction) : ℚ :=
  let w := (per.map MarketCropPrediction.confidence).sum
  if w = 0 then 0
  else (per.map (fun m => m.confidence * m.cvi)).sum / w

/-- Modelled from the spec: the risk-adjusted score — expected revenue
weighted down by CVI. -/
def riskAdjustedScore (m : MarketCropPrediction) : ℚ :=
  m.expected_revenue_total * (1 - riskDiscount m.cvi)

/-- Modelled from the spec: the market-recommended crop — the entry
maximizing the risk-adjusted score. -/
def recommendedMarketCrop (per : List MarketCropPrediction) : Option String :=
  (per.foldl (fun best m =>
    match best with
    | none => some m
    | some b => if riskAdjustedScore b < riskAdjustedScore m then some m else some b)
    none).map MarketCropPrediction.crop

/-- The (feature name, observed value) pairs of a feature vector, in the
order of the contract. -/
def featurePairs (f : SoilFeatures) : List (String × ℚ) :=
  [("N", f.N), ("P", f.P), ("K", f.K), ("temperature", f.temperature),
   ("humidity", f.humidity), ("rainfall", f.rainfall), ("ph", f.ph)]

def featureMean (f : SoilFeatures) : ℚ := ((featurePairs f).map Prod.snd).sum / 7

/-- Mean absolute deviation, standing in for the standard deviation so the
surrogate z-score stays rational. -/
def featureScale (f : SoilFeatures) : ℚ :=
  ((featurePairs f).map (fun p => |p.2 - featureMean f|)).sum / 7

def surrogateImpact (f : SoilFeatures) (v : ℚ) : ℚ :=
  if featureScale f = 0 then 0 else (v - featureMean f) / featureScale f

/-- Modelled from the spec: the explainability layer, missing from src/ —
primary tree-based attribution (impact scores from the opaque model stack
`shapImpact`) when that stack is loaded, surrogate z-score fallback
otherwise; both emit one (feature, value, impact) triple per feature. -/
def explainFeatures (shapAvailable : Bool) (shapImpact : String → ℚ)
    (f : SoilFeatures) : List FeatureContribution :=
  if shapAvailable then
    (featurePairs f).map (fun p => ⟨p.1, p.2, shapImpact p.1⟩)
  else
    (featurePairs f).map (fun p => ⟨p.1, p.2, surrogateImpact f p.2⟩)

def explainMethod (shapAvailable : Bool) : String :=
  if shapAvailable then "shap_tree_explainer" else "surrogate_zscore"

/-- Modelled from the spec: the deterministic default feature vector used by
the heuristic extraction fallback. -/
def defaultFeatures : SoilFeatures := ⟨50, 40, 30, 27, 60, 700, 13/2⟩

/-- Modelled from the spec: the `/api/v1/recommend` handler, missing from
src/ (only its contract is in `backend/README.md` and `src/lib/api.ts`).
Validates the input before any pipeline stage runs, then ranks the opaque
model scores, prices the ranked crops, aggregates market risk and attaches
explainability. -/
def recommend (modelScores : List TopCrop) (shapAvailable : Bool)
    (shapImpact : String → ℚ) (req : RecommendationRequest) :
    Except String RecommendationResponse :=
  if req.acres ≤ 0 ∨ req.location = "" then
    Except.error "acres must be a positive number and location must be non-empty"
  else
    let tops := rankCrops modelScores
    let per := tops.map (marketEntry req.acres)
    Except.ok
      { success := true
        input_source := "heuristic_fallback"
        location := req.location
        acres := req.acres
        normalized_features := defaultFeatures
        top_crops := tops
        market_prediction :=
          { per_crop := per
            overall_cvi := overallCvi per
            recommended_market_crop := recommendedMarketCrop per }
        explainability :=
          { method := explainMethod shapAvailable
            top_crop := (tops[0]?.map TopCrop.crop).getD ""
            summary := "top feature attributions for the recommended crop"
            feature_contributions :=
              explainFeatures shapAvailable shapImpact defaultFeatures }
        extraction_notes := ["generative extraction unavailable; used regional defaults"]
        model_info := [("ranker", "opaque model scores")]
        scheme_suggestions := [] }

/-- A concrete set of opaque model scores and a concrete valid request. -/
def exampleModelScores : List TopCrop := [⟨"rice", 1⟩, ⟨"cotton", 0⟩]

def exampleRequest : RecommendationRequest :=
  ⟨"Warangal, Telangana", 3, "red soil, moderate rain, Kharif"⟩

/-- The response the modelled backend generates for `exampleRequest`. -/
def exampleOkResponse : RecommendationResponse :=
  ((recommend exampleModelScores true (fun _ => 0) exampleRequest).toOption).getD
    exampleResponseA

/-! ## The backend assistant pipeline (modelled from the spec) -/

/-- The typed `/api/v1/assistant/chat` request of `src/lib/api.ts`. -/
structure AssistantChatRequest where
  message : String
  language : String
  location : String
  acres : ℚ
  crop : Option String

/-- The typed `/api/v1/assistant/chat` response of `src/lib/api.ts`. -/
structure AssistantChatResponse where
  success : Bool
  language : String
  intent : String
  rag_backend : String
  reply : String
  schemes : List AssistantScheme
  evidence : List AssistantEvidence
deriving DecidableEq

/-- Modelled from the spec: the static policy corpus, missing from src/ —
one evidence chunk per scheme: (scheme id, title, snippet, source link). -/
def policyCorpus : List (String × String × String × String) :=
  [("pm_kisan", "PM-KISAN Income Support",
    "Direct income support of Rs 6000 per year for small and marginal farmers",
    "https://pmkisan.gov.in/"),
   ("pmfby", "PMFBY Crop Insurance",
    "Crop insurance at subsidized premium against yield loss from climate events",
    "https://pmfby.gov.in/"),
   ("kcc", "Kisan Credit Card",
    "Short term production credit for crop cultivation at concessional interest",
    "https://www.myscheme.gov.in/schemes/kcc")]

def tokenize (s : String) : List String := s.splitOn " "

/-- Modelled from the spec: the embedding/scoring of a corpus chunk against a
query — a bag-of-words overlap count stands in for nearest-neighbor
similarity (both retrieval backends are built from the same corpus and use
the same scoring, so they rank identically). -/
def overlapScore (query text : String) : ℕ :=
  ((tokenize query).filter (fun w => (tokenize text).contains w)).length

/-- Retrieval order: descending score, ties broken by scheme id. -/
def evidenceOrder (a b : AssistantEvidence) : Prop :=
  b.score < a.score ∨ (a.score = b.score ∧ a.scheme_id ≤ b.scheme_id)

instance : DecidableRel evidenceOrder := fun a b =>
  decidable_of_iff
    (b.score < a.score ∨ (a.score = b.score ∧ a.scheme_id ≤ b.scheme_id))
    Iff.rfl

/-- Modelled from the spec: retrieval — score all corpus chunks against the
query and return the top-K (K = 3) evidence snippets, descending by score. -/
def retrieveEvidence (query : String) : List AssistantEvidence :=
  let scored := policyCorpus.map (fun e =>
    { scheme_id := e.1, title := e.2.1, snippet := e.2.2.1, source := e.2.2.2,
      score := (overlapScore query e.2.2.1 : ℚ) })
  (List.insertionSort evidenceOrder scored).take 3

/-- Modelled from the spec: deduplicate evidence by scheme id, keeping the
first (hence highest-scoring, the list being sorted descending) entry. -/
def dedupeBySchemeId (evs : List AssistantEvidence) : List AssistantEvidence :=
  evs.foldl (fun acc e =>
    if acc.any (fun x => x.scheme_id == e.scheme_id) then acc else acc ++ [e]) []

/-- Modelled from the spec: eligibility is an independent rule evaluation
over the farmer context (acreage, crop), not the retrieval score. -/
def schemeEligible (req : AssistantChatRequest) (sid : String) : Bool :=
  if sid = "pm_kisan" then req.acres ≤ 5
  else if sid = "pmfby" then req.crop.isSome
  else true

/-- Map one evidence chunk back to a ranked scheme card. -/
def schemeCard (req : AssistantChatRequest) (e : AssistantEvidence) : AssistantScheme :=
  { id := e.scheme_id, name := e.title, description := e.snippet,
    benefit := e.snippet,
    eligibility_hint := "See the scheme link for detailed eligibility rules",
    eligible := schemeEligible req e.scheme_id, score := e.score, link := e.source }

/-- Modelled from the spec: intent classification over a closed set. -/
def classifyIntent (message : String) : String :=
  let ws := tokenize message
  if ws.contains "scheme" || ws.contains "subsidy" || ws.contains "insurance"
      || ws.contains "loan" || ws.contains "credit" then
    "scheme_lookup"
  else "general_query"

/-- Modelled from the spec: templated reply composition; the language tag
selects only the natural-language text, never the data contract. -/
def composeReply (language : String) (schemes : List AssistantScheme) : String :=
  let names := joinCommaAll (schemes.map AssistantScheme.name)
  if schemes.isEmpty then
    if language = "hi" then "Kripya apna prashn aur vistaar se poochhen."
    else if language = "te" then "Dayachesi mee prashnanu marinta vivaramga adagandi."
    else "Please ask your question with more detail."
  else
    (if language = "hi" then "Yeh yojanaayen aapke liye upyogi ho sakti hain: "
     else if language = "te" then "Mee kosam ee pathakaalu upayogapadatayi: "
     else "These schemes may help you: ") ++ names

/-- Modelled from the spec: the `/api/v1/assistant/chat` handler, missing
from src/.  Both retrieval backends are built from the same corpus; which one
is available only selects the `rag_backend` tag reported to the client. -/
def assistantChat (vectorStoreAvailable : Bool) (req : AssistantChatRequest) :
    AssistantChatResponse :=
  let ev := retrieveEvidence req.message
  let schemes := (dedupeBySchemeId ev).map (schemeCard req)
  { success := true
    language := req.language
    intent := classifyIntent req.message
    rag_backend := if vectorStoreAvailable then "chromadb" else "in_memory"
    reply := composeReply req.language schemes
    schemes := schemes
    evidence := ev }

def serializeScheme (s : AssistantScheme) : JsValue :=
  .obj [("id", .str s.id), ("name", .str s.name), ("description", .str s.description),
        ("benefit", .str s.benefit), ("eligibility_hint", .str s.eligibility_hint),
        ("eligible", .bool s.eligible), ("score", .num s.score), ("link", .str s.link)]

def serializeEvidence (e : AssistantEvidence) : JsValue :=
  .obj [("scheme_id", .str e.scheme_id), ("title", .str e.title),
        ("snippet", .str e.snippet), ("source", .str e.source), ("score", .num e.score)]

/-- The JSON serialization of an `AssistantChatResponse`. -/
def serializeChatResponse (r : AssistantChatResponse) : JsValue :=
  .obj [("success", .bool r.success), ("language", .str r.language),
        ("intent", .str r.intent), ("rag_backend", .str r.rag_backend),
        ("reply", .str r.reply),
        ("schemes", .arr (r.schemes.map serializeScheme)),
        ("evidence", .arr (r.evidence.map serializeEvidence))]

/-- The top-level key list (JSON shape) of a value. -/
def jsonKeys : JsValue → List String
  | .obj fields => fields.map Prod.fst
  | _ => []

theorem clientContract_holds (f0 : HttpResponse → Except JsValue JsValue) (fb : String)
    (resp : HttpResponse)
    (hf : ∀ r : HttpResponse,
      f0 r =
        (if !r.ok || !((parseJsonSafe r.body).getField "success").truthy then
          Except.error (((parseJsonSafe r.body).getField "error").nullishOr (.str fb))
        else
          Except.ok (parseJsonSafe r.body))) :
    ClientContract f0 fb resp := by
  have h := hf resp
  unfold ClientContract
  by_cases hcond : (!resp.ok || !((parseJsonSafe resp.body).getField "success").truthy) = true
  · rw [hcond] at h
    simp only [if_true] at h
    rw [Bool.or_eq_true, Bool.not_eq_true', Bool.not_eq_true'] at hcond
    refine ⟨?_, ?_, ?_⟩
    · constructor
      · intro hok
        rw [h] at hok
        exact absurd hok (by simp)
      · rintro ⟨hok, hsucc⟩
        rcases hcond with hc | hc
        · rw [hok] at hc; exact absurd hc (by simp)
        · rw [hsucc] at hc; exact absurd hc (by simp)
    · constructor
      · intro _; exact hcond
      · intro _; exact ⟨_, h⟩
    · intro m hm
      rw [h] at hm
      have hmv : m = ((parseJsonSafe resp.body).getField "error").nullishOr (.str fb) :=
        (Except.error.injEq _ _ ▸ hm).symm
      constructor
      · intro s hs
        rw [hmv, hs]; rfl
      · intro habs
        rcases habs with habs | habs <;> rw [hmv, habs] <;> rfl
  · rw [Bool.not_eq_true] at hcond
    rw [hcond] at h
    simp only [Bool.false_eq_true, if_false] at h
    have hcond' := hcond
    rw [Bool.or_eq_false_iff, Bool.not_eq_false', Bool.not_eq_false'] at hcond'
    refine ⟨?_, ?_, ?_⟩
    · exact ⟨fun _ => hcond', fun _ => h⟩
    · constructor
      · rintro ⟨m, hm⟩
        rw [h] at hm
        exact absurd hm (by simp)
      · rintro (hc | hc)
        · rw [hcond'.1] at hc; exact absurd hc (by simp)
        · rw [hcond'.2] at hc; exact absurd hc (by simp)
    · intro m hm
      rw [h] at hm
      exact absurd hm (by simp)

/-- C1: for every HTTP response, `requestCropRecommendation` and
`requestAssistantChat` throw if and only if the response is not ok or the
parsed body's `success` field is falsy; the thrown message is the body's
`error` string when present and otherwise the function-specific fallback
("Failed to fetch recommendation" resp. "Assistant request failed"); when no
error is thrown the parsed body is returned unchanged. -/
theorem c1_client_error_mapping (resp : HttpResponse) :
    ClientContract requestCropRecommendation "Failed to fetch recommendation" resp
    ∧ ClientContract requestAssistantChat "Assistant request failed" resp := by
  constructor
  · exact clientContract_holds _ _ resp (fun r => rfl)
  · exact clientContract_holds _ _ resp (fun r => rfl)

/-- Witness for C1 at a concrete response: a non-ok response whose body
carries an `error` string. -/
theorem c1_client_error_mapping_witness :
    ClientContract requestCropRecommendation "Failed to fetch recommendation"
      ⟨false, some (.obj [("error", .str "boom")])⟩
    ∧ ClientContract requestAssistantChat "Assistant request failed"
      ⟨false, some (.obj [("error", .str "boom")])⟩ :=
  c1_client_error_mapping ⟨false, some (.obj [("error", .str "boom")])⟩

/-- C8: a response whose body is not valid JSON never surfaces a parse error:
`parseJsonSafe` totalizes parsing to the empty object, whose `success` field
is `undefined` (falsy), so both client functions always throw the generic
fallback message on such a response, whatever the status flag. -/
theorem c8_invalid_json_fallback (ok : Bool) :
    parseJsonSafe none = .obj []
    ∧ requestCropRecommendation ⟨ok, none⟩ =
        Except.error (.str "Failed to fetch recommendation")
    ∧ requestAssistantChat ⟨ok, none⟩ =
        Except.error (.str "Assistant request failed") := by
  refine ⟨rfl, ?_, ?_⟩ <;> cases ok <;> rfl

/-- Witness for C8 at a concrete status flag. -/
theorem c8_invalid_json_fallback_witness :
    parseJsonSafe none = .obj []
    ∧ requestCropRecommendation ⟨true, none⟩ =
        Except.error (.str "Failed to fetch recommendation")
    ∧ requestAssistantChat ⟨true, none⟩ =
        Except.error (.str "Assistant request failed") :=
  c8_invalid_json_fallback true

theorem string_append_length (a b : String) : (a ++ b).length = a.length + b.length := by
  cases a with | mk la =>
  cases b with | mk lb =>
  rw [String.congr_append]
  simp [String.length_eq_list_length]

theorem append_comma_ne_empty (d s : String) : d ++ ", " ++ s ≠ "" := by
  intro he
  have h := congrArg String.length he
  rw [string_append_length, string_append_length] at h
  have h2 : (", ").length = 2 := rfl
  have h3 : ("" : String).length = 0 := rfl
  rw [h2, h3] at h
  omega

theorem filterJoinComma_pair (d s : String) :
    filterJoinComma [d, s] =
      if d = "" then (if s = "" then "" else s)
      else if s = "" then d else d ++ ", " ++ s := by
  unfold filterJoinComma
  by_cases hd : d = "" <;> by_cases hs : s = "" <;> simp [hd, hs, joinCommaAll]

theorem chatAcres_pos (jsNumber : String → Option ℚ) (farmer : Option FarmerProfile) :
    0 < chatAcres jsNumber farmer := by
  cases farmer with
  | none => norm_num [chatAcres]
  | some f =>
    cases hls : f.landSize with
    | none => norm_num [chatAcres, hls]
    | some s =>
      cases hj : jsNumber s with
      | none => norm_num [chatAcres, hls, hj]
      | some v =>
        by_cases hv : 0 < v
        · simp [chatAcres, hls, hj, hv]
        · norm_num [chatAcres, hls, hj, hv]

theorem chatLocation_ne_empty (farmer : Option FarmerProfile) :
    chatLocation farmer ≠ "" := by
  cases farmer with
  | none => simp [chatLocation]
  | some f =>
    by_cases hd : f.district = "" <;> by_cases hs : f.state = "" <;>
      simp [chatLocation, filterJoinComma_pair, hd, hs]
    exact append_comma_ne_empty f.district f.state

/-- C9: every assistant chat request built by the `ChatBot` satisfies the
backend's input invariant, whatever the stored profile and whatever the
`Number(-)` builtin returns: `acres` is strictly positive (defaulting to 1
when the profile's landSize is missing, non-numeric, or non-positive) and
`location` is a non-empty string (defaulting to "India" when district and
state are both empty). -/
theorem c9_chat_request_invariants (jsNumber : String → Option ℚ)
    (farmer : Option FarmerProfile) :
    0 < chatAcres jsNumber farmer
    ∧ chatLocation farmer ≠ ""
    ∧ (∀ f, farmer = some f → f.landSize = none → chatAcres jsNumber farmer = 1)
    ∧ (∀ f s, farmer = some f → f.landSize = some s → jsNumber s = none →
        chatAcres jsNumber farmer = 1)
    ∧ (∀ f s a, farmer = some f → f.landSize = some s → jsNumber s = some a →
        a ≤ 0 → chatAcres jsNumber farmer = 1)
    ∧ (∀ f, farmer = some f → f.district = "" → f.state = "" →
        chatLocation farmer = "India") := by
  refine ⟨chatAcres_pos jsNumber farmer, chatLocation_ne_empty farmer, ?_, ?_, ?_, ?_⟩
  · intro f hf hls
    subst hf
    norm_num [chatAcres, hls]
  · intro f s hf hls hj
    subst hf
    norm_num [chatAcres, hls, hj]
  · intro f s a hf hls hj hle
    subst hf
    norm_num [chatAcres, hls, hj, not_lt.mpr hle]
  · intro f hf hd hs
    subst hf
    simp [chatLocation, hd, hs]

/-- Witness for C9 at a concrete profile whose land size does not parse. -/
theorem c9_chat_request_invariants_witness :
    0 < chatAcres (fun _ => none) (some exampleFarmer)
    ∧ chatLocation (some exampleFarmer) ≠ ""
    ∧ (∀ f, some exampleFarmer = some f → f.landSize = none →
        chatAcres (fun _ => none) (some exampleFarmer) = 1)
    ∧ (∀ f s, some exampleFarmer = some f →
        f.landSize = some s → (fun _ => (none : Option ℚ)) s = none →
        chatAcres (fun _ => none) (some exampleFarmer) = 1)
    ∧ (∀ f s a, some exampleFarmer = some f →
        f.landSize = some s → (fun _ => (none : Option ℚ)) s = some a →
        a ≤ 0 → chatAcres (fun _ => none) (some exampleFarmer) = 1)
    ∧ (∀ f, some exampleFarmer = some f → f.district = "" →
        f.state = "" → chatLocation (some exampleFarmer) = "India") :=
  c9_chat_request_invariants (fun _ => none) (some exampleFarmer)

/-- C6: when the land-size field does not parse to a finite number strictly
greater than 0, `handleSubmit` rejects before anything else runs: it sets the
descriptive error message and performs no profile update, no network request,
no `localStorage` write and no navigation. -/
theorem c6_invalid_land_size_rejected (jsNumber : String → Option ℚ) (today : String)
    (now : ℚ) (language : String) (form : FormState) (response : HttpResponse)
    (h : jsNumber form.landSize = none ∨ ∃ a, jsNumber form.landSize = some a ∧ a ≤ 0) :
    handleSubmit jsNumber today now language form response =
      { errorMessage := .str "Please enter a valid land size in acres.",
        profileUpdate := none, requestSent := none, storageWrites := [],
        navigatedWith := none } := by
  unfold handleSubmit
  rcases h with h | ⟨a, ha, hle⟩
  · rw [h]
  · rw [ha]
    exact if_pos hle

/-- Witness for C6 at a concrete form whose land size parses to -1. -/
theorem c6_invalid_land_size_rejected_witness :
    handleSubmit (fun _ => some (-1)) "12/10/2026" 0 "en"
      ⟨"Warangal", "Telangana", "-1", "Kharif", "Rainfed", "Black Soil"⟩ ⟨true, none⟩ =
      { errorMessage := .str "Please enter a valid land size in acres.",
        profileUpdate := none, requestSent := none, storageWrites := [],
        navigatedWith := none } :=
  c6_invalid_land_size_rejected _ _ _ _ _ _ (Or.inr ⟨-1, rfl, by norm_num⟩)

/-- C10: round-trip of the last-result cache.  After a successful submission
whose response has a first top crop `s`, the value written by `handleSubmit`
under the `localStorage` key "agri_last_result" is read back by the
`ChatBot`'s `latestCrop`, so that the `crop` field of a subsequent chat
payload is exactly `s`; when the cache is absent or unparseable, `latestCrop`
is `undefined` and the `crop` key is omitted from the payload. -/
theorem c10_last_result_cache_roundtrip (jsNumber : String → Option ℚ) (today : String)
    (now : ℚ) (language : String) (form : FormState) (response : HttpResponse)
    (data : JsValue) (s msg lang loc : String) (ac : ℚ)
    (hacres : ∃ a, jsNumber form.landSize = some a ∧ 0 < a)
    (hok : requestCropRecommendation response = Except.ok data)
    (hcrop : ((data.getField "top_crops").getIndex 0).getField "crop" = .str s) :
    (∃ L, ((handleSubmit jsNumber today now language form response).storageWrites.find?
            (fun p => p.1 == "agri_last_result")).map Prod.snd = some L
        ∧ latestCrop (some (some L)) = .str s
        ∧ (buildChatPayload msg lang loc ac (latestCrop (some (some L)))).getField "crop"
            = .str s)
    ∧ latestCrop none = .undefined
    ∧ latestCrop (some none) = .undefined
    ∧ (buildChatPayload msg lang loc ac (latestCrop none)).getField "crop" = .undefined := by
  obtain ⟨a, ha, hpos⟩ := hacres
  refine ⟨⟨.obj [("topCrop", .str s), ("location", data.getField "location"),
    ("acres", data.getField "acres"), ("timestamp", .num now)], ?_, rfl, rfl⟩, rfl, rfl, rfl⟩
  simp only [handleSubmit, ha, not_le.mpr hpos, if_false, hok, hcrop]
  rfl

/-- Witness for C10 at a concrete submission and response. -/
theorem c10_last_result_cache_roundtrip_witness :
    (∃ L, ((handleSubmit (fun _ => some 2) "12/10/2026" 0 "en"
            ⟨"Warangal", "Telangana", "2", "Kharif", "Rainfed", "Black Soil"⟩
            ⟨true, some exampleRecommendationBody⟩).storageWrites.find?
            (fun p => p.1 == "agri_last_result")).map Prod.snd = some L
        ∧ latestCrop (some (some L)) = .str "rice"
        ∧ (buildChatPayload "hello" "en" "India" 1 (latestCrop (some (some L)))).getField "crop"
            = .str "rice")
    ∧ latestCrop none = .undefined
    ∧ latestCrop (some none) = .undefined
    ∧ (buildChatPayload "hello" "en" "India" 1 (latestCrop none)).getField "crop"
        = .undefined :=
  c10_last_result_cache_roundtrip (fun _ => some 2) "12/10/2026" 0 "en"
    ⟨"Warangal", "Telangana", "2", "Kharif", "Rainfed", "Black Soil"⟩
    ⟨true, some exampleRecommendationBody⟩ exampleRecommendationBody
    "rice" "hello" "en" "India" 1 ⟨2, rfl, by norm_num⟩ rfl rfl

/-- C7 counterexample: two responses that differ only in
`market_prediction.recommended_market_crop` yield identical derived Results
data, so the data the Results page derives does not read that field. -/
theorem c7_counterexample_market_crop_not_read :
    resultsData exampleResponseA = resultsData exampleResponseC
    ∧ exampleResponseC = setRecommendedMarketCrop exampleResponseA (some "cotton")
    ∧ exampleResponseA.market_prediction.recommended_market_crop ≠
        exampleResponseC.market_prediction.recommended_market_crop := by
  refine ⟨rfl, rfl, ?_⟩
  decide

/-- C7 (amended): the data the Results page derives reads `top_crops[0].crop`
(it is surfaced as the recommended crop), but it never reads
`market_prediction.recommended_market_crop`: the derived data is invariant
under any change to that field. -/
theorem c7_results_derivation_reads :
    (∀ (r : RecommendationResponse) (v : Option String),
        resultsData (setRecommendedMarketCrop r v) = resultsData r)
    ∧ (∀ r : RecommendationResponse,
        (resultsData r).recommendedCrop = (r.top_crops[0]?.map TopCrop.crop).getD "N/A")
    ∧ (resultsData exampleResponseA).recommendedCrop = "rice"
    ∧ (resultsData exampleResponseB).recommendedCrop = "wheat" :=
  ⟨fun _ _ => rfl, fun _ => rfl, rfl, rfl⟩

theorem rankCrops_ne_nil (ms : List TopCrop) : rankCrops ms ≠ [] := by
  unfold rankCrops
  by_cases h : (List.insertionSort cropOrder ms).isEmpty
  · simp only [h, if_true]
    simp [defaultTopCrops]
  · simp only [h, Bool.false_eq_true, if_false]
    intro he
    rw [he] at h
    exact h rfl

theorem rankCrops_sorted (ms : List TopCrop) : List.Sorted cropOrder (rankCrops ms) := by
  unfold rankCrops
  by_cases h : (List.insertionSort cropOrder ms).isEmpty
  · simp only [h, if_true]
    norm_num [defaultTopCrops, List.sorted_cons, cropOrder]
  · simp only [h, Bool.false_eq_true, if_false]
    exact List.sorted_insertionSort cropOrder ms

/-- C2: for every valid request (positive acreage, non-empty location), the
generated `/api/v1/recommend` response has a non-empty `top_crops` list sorted
by descending confidence with ties broken by crop name, and that ordering is
deterministic: any sorted permutation of it is equal to it. -/
theorem c2_top_crops_sorted_nonempty (modelScores : List TopCrop) (shapAvailable : Bool)
    (shapImpact : String → ℚ) (req : RecommendationRequest) (resp : RecommendationResponse)
    (hacres : 0 < req.acres) (hloc : req.location ≠ "")
    (hok : recommend modelScores shapAvailable shapImpact req = Except.ok resp) :
    1 ≤ resp.top_crops.length
    ∧ List.Sorted cropOrder resp.top_crops
    ∧ (∀ l, l.Perm resp.top_crops → List.Sorted cropOrder l → l = resp.top_crops) := by
  have hcond : ¬(req.acres ≤ 0 ∨ req.location = "") := by
    push_neg
    exact ⟨hacres, hloc⟩
  unfold recommend at hok
  rw [if_neg hcond] at hok
  have h := Except.ok.inj hok
  subst h
  refine ⟨List.length_pos.mpr (rankCrops_ne_nil modelScores),
    rankCrops_sorted modelScores, ?_⟩
  intro l hp hs
  exact List.eq_of_perm_of_sorted hp hs (rankCrops_sorted modelScores)

/-- Witness for C2 at the concrete request. -/
theorem c2_top_crops_sorted_nonempty_witness :
    1 ≤ exampleOkResponse.top_crops.length
    ∧ List.Sorted cropOrder exampleOkResponse.top_crops
    ∧ (∀ l, l.Perm exampleOkResponse.top_crops → List.Sorted cropOrder l →
        l = exampleOkResponse.top_crops) :=
  c2_top_crops_sorted_nonempty exampleModelScores true (fun _ => 0) exampleRequest
    exampleOkResponse (by norm_num [exampleRequest]) (by decide) rfl

theorem marketTable_nonneg (c : String) :
    0 ≤ (marketTable c).1 ∧ 0 ≤ (marketTable c).2.1 := by
  unfold marketTable
  split_ifs <;> norm_num

theorem riskDiscount_bounds (cvi : ℚ) : 0 ≤ riskDiscount cvi ∧ riskDiscount cvi ≤ 1 := by
  unfold riskDiscount
  exact ⟨le_min (by norm_num) (le_max_left 0 _), min_le_left 1 _⟩

theorem marketEntry_worst_le (acres : ℚ) (hac : 0 ≤ acres) (t : TopCrop) :
    (marketEntry acres t).worst_case_revenue_per_acre
      ≤ (marketEntry acres t).expected_revenue_per_acre
    ∧ (marketEntry acres t).worst_case_revenue_total
      ≤ (marketEntry acres t).expected_revenue_total := by
  have hpy := marketTable_nonneg t.crop
  have hd := riskDiscount_bounds (marketTable t.crop).2.2
  have hexp : 0 ≤ (marketTable t.crop).1 * (marketTable t.crop).2.1 :=
    mul_nonneg hpy.1 hpy.2
  have h1 : (marketTable t.crop).1 * (marketTable t.crop).2.1
      * (1 - riskDiscount (marketTable t.crop).2.2)
      ≤ (marketTable t.crop).1 * (marketTable t.crop).2.1 := by
    nlinarith [mul_nonneg hexp hd.1]
  exact ⟨h1, mul_le_mul_of_nonneg_right h1 hac⟩

/-- C3: in every generated recommendation response, every entry of
`market_prediction.per_crop` has worst-case revenue bounded by expected
revenue, both per acre and in total. -/
theorem c3_worst_case_le_expected (modelScores : List TopCrop) (shapAvailable : Bool)
    (shapImpact : String → ℚ) (req : RecommendationRequest) (resp : RecommendationResponse)
    (hok : recommend modelScores shapAvailable shapImpact req = Except.ok resp) :
    ∀ m ∈ resp.market_prediction.per_crop,
      m.worst_case_revenue_per_acre ≤ m.expected_revenue_per_acre
      ∧ m.worst_case_revenue_total ≤ m.expected_revenue_total := by
  unfold recommend at hok
  by_cases hcond : (req.acres ≤ 0 ∨ req.location = "")
  · rw [if_pos hcond] at hok
    exact absurd hok (by simp)
  · rw [if_neg hcond] at hok
    have hacres : 0 ≤ req.acres := by
      push_neg at hcond
      exact le_of_lt hcond.1
    have h := Except.ok.inj hok
    subst h
    intro m hm
    obtain ⟨t, ht, rfl⟩ := List.mem_map.mp hm
    exact marketEntry_worst_le req.acres hacres t

/-- Witness for C3 at a concrete generated response and entry. -/
theorem c3_worst_case_le_expected_witness :
    (marketEntry 3 ⟨"rice", 1⟩).worst_case_revenue_per_acre
      ≤ (marketEntry 3 ⟨"rice", 1⟩).expected_revenue_per_acre
    ∧ (marketEntry 3 ⟨"rice", 1⟩).worst_case_revenue_total
      ≤ (marketEntry 3 ⟨"rice", 1⟩).expected_revenue_total :=
  c3_worst_case_le_expected exampleModelScores true (fun _ => 0) exampleRequest
    exampleOkResponse rfl (marketEntry 3 ⟨"rice", 1⟩) (List.mem_cons_self _ _)

/-- C4: in every generated recommendation response, the explainability method
is exactly one of "shap_tree_explainer" and "surrogate_zscore", and whichever
method ran, the feature contributions carry exactly the (feature, observed
value) pairs of the feature vector with a signed impact per entry. -/
theorem c4_explainability_contract (modelScores : List TopCrop) (shapAvailable : Bool)
    (shapImpact : String → ℚ) (req : RecommendationRequest) (resp : RecommendationResponse)
    (hok : recommend modelScores shapAvailable shapImpact req = Except.ok resp) :
    (resp.explainability.method = "shap_tree_explainer"
      ∨ resp.explainability.method = "surrogate_zscore")
    ∧ resp.explainability.feature_contributions.map (fun fc => (fc.feature, fc.value))
        = featurePairs resp.normalized_features := by
  unfold recommend at hok
  by_cases hcond : (req.acres ≤ 0 ∨ req.location = "")
  · rw [if_pos hcond] at hok
    exact absurd hok (by simp)
  · rw [if_neg hcond] at hok
    have h := Except.ok.inj hok
    subst h
    cases shapAvailable
    · exact ⟨Or.inr rfl, rfl⟩
    · exact ⟨Or.inl rfl, rfl⟩

/-- Witness for C4 at the concrete generated response. -/
theorem c4_explainability_contract_witness :
    (exampleOkResponse.explainability.method = "shap_tree_explainer"
      ∨ exampleOkResponse.explainability.method = "surrogate_zscore")
    ∧ exampleOkResponse.explainability.feature_contributions.map
        (fun fc => (fc.feature, fc.value))
        = featurePairs exampleOkResponse.normalized_features :=
  c4_explainability_contract exampleModelScores true (fun _ => 0) exampleRequest
    exampleOkResponse rfl

/-- C5: for every chat request, the response produced with the vector-store
backend available and the one produced with the in-memory fallback have the
same JSON shape (the same seven fields) and agree on every field value except
`rag_backend`, which is "chromadb" in the first run and "in_memory" in the
second. -/
theorem c5_chat_shape_backend_invariant (req : AssistantChatRequest) :
    jsonKeys (serializeChatResponse (assistantChat true req))
      = jsonKeys (serializeChatResponse (assistantChat false req))
    ∧ (assistantChat true req).success = (assistantChat false req).success
    ∧ (assistantChat true req).language = (assistantChat false req).language
    ∧ (assistantChat true req).intent = (assistantChat false req).intent
    ∧ (assistantChat true req).reply = (assistantChat false req).reply
    ∧ (assistantChat true req).schemes = (assistantChat false req).schemes
    ∧ (assistantChat true req).evidence = (assistantChat false req).evidence
    ∧ (assistantChat true req).rag_backend = "chromadb"
    ∧ (assistantChat false req).rag_backend = "in_memory" :=
  ⟨rfl, rfl, rfl, rfl, rfl, rfl, rfl, rfl, rfl⟩
